import Mathlib

/-!
Shallow embedding of `commands.py` (boskee/Minecraft): the slash-command
parser and dispatcher (`CommandParser.parse` / `CommandParser.execute`),
the match-group argument binding, and the two leaf commands
`GiveBlockCommand` and `SetTimeCommand`.

Python's mutable execution context (controller.time_of_day, the user's
inventory) is modelled as an explicit `GameState` threaded through the
handlers; a raised Python exception is modelled as an `Except.error`
paired with the state at the moment of the raise.
-/

set_option autoImplicit false

/-- Character class of Python's regex `\d` (ASCII digits). -/
def reDigit (c : Char) : Bool :=
  '0' ≤ c && c ≤ '9'

/-- Character class of Python's regex `\s` and of `str.strip()`
(space, tab, newline, carriage return, vertical tab, form feed). -/
def reSpace (c : Char) : Bool :=
  c = ' ' || c = '\t' || c = '\n' || c = '\r' || c = '\x0b' || c = '\x0c'

/-- Python `str.strip()` on a character list: whitespace removed from both ends. -/
def pyStrip (cs : List Char) : List Char :=
  ((cs.dropWhile reSpace).reverse.dropWhile reSpace).reverse

/-- Python `command_text.startswith("/")` (line 32 / line 70 of commands.py). -/
def startsWithSlash (s : String) : Bool :=
  match s.data with
  | '/' :: _ => true
  | _ => false

/-- The `stripped` value of line 33: `command_text[1:].strip()`. -/
def strippedOf (s : String) : String :=
  ⟨pyStrip (s.data.drop 1)⟩

/-- Consume a literal character sequence from the front of the input,
returning the remainder, or `none` if the input does not start with it. -/
def dropLit : List Char → List Char → Option (List Char)
  | [], rest => some rest
  | _ :: _, [] => none
  | p :: ps, c :: cs => if p = c then dropLit ps cs else none

/-- A Python `re` match object, reduced to what the dispatcher reads from it:
`groups` is `match.groups()` (one entry per capture group, in pattern order,
`none` for a group that did not participate in the match) and `names` maps
each named group to its group index (from which `match.groupdict()` derives). -/
structure Match where
  groups : List (Option String)
  names : List (String × Nat)
deriving DecidableEq, Repr

/-- The game-state the two leaf commands touch: the controller's
`time_of_day` field, and the invoking user's inventory (the set of item
identifiers the inventory recognises, plus the items added so far). -/
structure GameState where
  time_of_day : Int
  knownIds : List ℚ
  inventory : List (ℚ × Int)
deriving DecidableEq, Repr

/-- Python exceptions raised along the dispatch path.
`unknownCommandException` models `UnknownCommandException` (a subclass of
`CommandException` constructed with `message = None`); `commandException`
models a `CommandException` raised by a handler; `typeError` models a
`TypeError` (e.g. `re.match(None, stripped)` on a command class whose
`command` attribute was never set and is the inherited `None`). -/
inductive PyExc
  | commandException (command_text : String) (message : Option String)
  | unknownCommandException (command_text : String)
  | typeError (message : String)
deriving DecidableEq, Repr

/-- The value `CommandParser.execute` returns when it does not raise:
`handled` is `COMMAND_HANDLED` (= `True`), `notHandled` is
`COMMAND_NOT_HANDLED` (= `None`), and `value v` is a non-`None` handler
return value passed through. -/
inductive DispatchOutcome
  | handled
  | notHandled
  | value (v : String)
deriving DecidableEq, Repr

/-- A handler call: `command.execute(*args, **kwargs)` on an instance whose
`command_text` is the stripped text. Returns the Python return value
(`none` = Python `None`) or a raised exception, together with the state as
mutated up to that point. -/
abbrev Handler :=
  String → List String → List (String × String) → GameState →
    Except PyExc (Option String) × GameState

/-- One entry of `Command.__subclasses__()`: its `command` class attribute
(`none` models a subclass that never sets it, so that the inherited
`Command.command = None` is found — note the `hasattr` guard at line 36
never fires, since the attribute is inherited) and its `execute` method. -/
structure CommandType where
  command : Option (String → Option Match)
  execute : Handler

/-- Line 59: `args = filter(lambda a: a is not None, match.groups())` —
the positional arguments passed to the handler. -/
def buildArgs (m : Match) : List String :=
  m.groups.filterMap id

/-- `match.groupdict()`: each named group's name paired with its captured
value (`none` when the group did not participate). -/
def groupdict (m : Match) : List (String × Option String) :=
  m.names.map fun p => (p.1, m.groups.getD p.2 none)

/-- Lines 60-63: the keyword arguments — `match.groupdict()` entries whose
value is not `None`. -/
def buildKwargs (m : Match) : List (String × String) :=
  (groupdict m).filterMap fun p =>
    match p.2 with
    | some v => some (p.1, v)
    | none => none

/-- Lines 35-42: the loop over `Command.__subclasses__()`. A command class
whose `command` attribute is (the inherited) `None` makes
`re.match(None, stripped)` raise `TypeError` — per call, during dispatch.
Otherwise the first class whose pattern matches `stripped` is returned. -/
def parseLoop : List CommandType → String → Except PyExc (Option (CommandType × Match))
  | [], _ => .ok none
  | ct :: rest, stripped =>
    match ct.command with
    | none => .error (.typeError "expected string or buffer")
    | some pat =>
      match pat stripped with
      | some m => .ok (some (ct, m))
      | none => parseLoop rest stripped

/-- Lines 26-43: `CommandParser.parse`. On a sentinel-prefixed text, strips
the sentinel and surrounding whitespace and scans the registry; the matched
command instance is constructed with `command_text = stripped` (line 41),
so the stripped text is returned alongside the match. Returns `ok none`
when the text has no sentinel or no pattern matches. -/
def CommandParser.parse (registry : List CommandType) (command_text : String) :
    Except PyExc (Option (CommandType × Match × String)) :=
  if startsWithSlash command_text then
    let stripped := strippedOf command_text
    match parseLoop registry stripped with
    | .error e => .error e
    | .ok none => .ok none
    | .ok (some (ct, m)) => .ok (some (ct, m, stripped))
  else .ok none

/-- Lines 45-72: `CommandParser.execute`. Parses, builds positional and
keyword arguments from the match, invokes the handler and normalises its
return value (`None` → `COMMAND_HANDLED`); when nothing parsed, raises
`UnknownCommandException(command_text)` if the sentinel was present, else
returns `COMMAND_NOT_HANDLED`. -/
def CommandParser.execute (registry : List CommandType) (command_text : String)
    (st : GameState) : Except PyExc DispatchOutcome × GameState :=
  match CommandParser.parse registry command_text with
  | .error e => (.error e, st)
  | .ok (some (ct, m, stripped)) =>
    let args := buildArgs m
    let kwargs := buildKwargs m
    match ct.execute stripped args kwargs st with
    | (.error e, st') => (.error e, st')
    | (.ok none, st') => (.ok .handled, st')
    | (.ok (some v), st') => (.ok (.value v), st')
  | .ok none =>
    if startsWithSlash command_text then
      (.error (.unknownCommandException command_text), st)
    else
      (.ok .notHandled, st)

/-- Python `int()` on a string: an optional minus sign followed by a
nonempty run of digits (the shapes reachable from the patterns here; other
accepted Python forms such as surrounding whitespace or a plus sign cannot
reach this code). `none` models a raised `ValueError`. -/
def digitsVal (cs : List Char) : Int :=
  Int.ofNat (cs.foldl (fun a c => a * 10 + (c.toNat - '0'.toNat)) 0)

def pyInt (s : String) : Option Int :=
  match s.data with
  | '-' :: rest =>
    if !rest.isEmpty && rest.all reDigit then some (-(digitsVal rest)) else none
  | rest =>
    if !rest.isEmpty && rest.all reDigit then some (digitsVal rest) else none

/-- Python `float()` restricted to the decimal shapes `\d+(\.\d+)?` that the
give pattern can produce, valued exactly in `ℚ` (floating-point rounding is
immaterial to the properties proved here). `none` models a `ValueError`. -/
def pyFloat (s : String) : Option ℚ :=
  let intPart := s.data.takeWhile reDigit
  let rest := s.data.dropWhile reDigit
  if intPart.isEmpty then none
  else
    match rest with
    | [] => some ((digitsVal intPart : Int) : ℚ)
    | '.' :: fr =>
      if !fr.isEmpty && fr.all reDigit then
        some ((digitsVal intPart : Int) + ((digitsVal fr : Int) : ℚ) / (10 : ℚ) ^ fr.length)
      else none
    | _ => none

/-- The pattern of `SetTimeCommand` (line 103): `^time set (\d+)$` —
the literal `time set ` followed by one capture group of one-or-more
digits, anchored at both ends. -/
def matchTimeSet (s : String) : Option Match :=
  match dropLit "time set ".data s.data with
  | none => none
  | some rest =>
    if !rest.isEmpty && rest.all reDigit then some ⟨[some ⟨rest⟩], []⟩ else none

/-- The pattern of `GiveBlockCommand` (line 90):
`^give (\d+(?:\.\d+)?)\s*(\d+)?$` — the literal `give `, a required group
of digits with an optional fractional part, optional whitespace and an
optional second group of digits, anchored at both ends. Greedy matching is
deterministic here: backtracking out of `\d+` or `(?:\.\d+)?` can never
turn a failure into a success, because what they give back (a digit, or a
dot followed by digits) can never start a match of `\s*(\d+)?$`. -/
def matchGive (s : String) : Option Match :=
  match dropLit "give ".data s.data with
  | none => none
  | some rest =>
    let d1 := rest.takeWhile reDigit
    let r1 := rest.dropWhile reDigit
    if d1.isEmpty then none
    else
      let gr : List Char × List Char :=
        match r1 with
        | '.' :: r =>
          let d2 := r.takeWhile reDigit
          if d2.isEmpty then (d1, r1) else (d1 ++ '.' :: d2, r.dropWhile reDigit)
        | _ => (d1, r1)
      let r3 := gr.2.dropWhile reSpace
      if r3.isEmpty then some ⟨[some ⟨gr.1⟩, none], []⟩
      else if r3.all reDigit then some ⟨[some ⟨gr.1⟩, some ⟨r3⟩], []⟩
      else none

/-- Modelled from the spec: `user.inventory.add_item` is code of this
repository that is not under `src/` (only `commands.py` is provided). Per
the spec the user "must expose an inventory capable of adding a quantity of
an item by identifier, failing with a not-found condition for unknown
identifiers"; adding appends `(identifier, quantity)` when the identifier
is known, and `none` models the `KeyError` for an unknown identifier. -/
def addItem (st : GameState) (ident : ℚ) (quantity : Int) : Option GameState :=
  if ident ∈ st.knownIds then
    some { st with inventory := st.inventory ++ [(ident, quantity)] }
  else none

/-- Python's binding of the `amount` parameter of
`GiveBlockCommand.execute(self, block_id, amount=1, *args, **kwargs)`:
the second positional argument if present, else the keyword argument
`amount`, else (`none`) the declared default `1`. -/
def GiveBlockCommand.bindAmount (args : List String) (kwargs : List (String × String)) :
    Option String :=
  args.get? 1 <|> kwargs.lookup "amount"

/-- `int(amount)` inside the handler: on the default (`none`) the Python
default parameter value is the integer `1`, so `int(1) = 1`; on an explicit
string the string is converted. -/
def GiveBlockCommand.amountValue : Option String → Option Int
  | none => some 1
  | some s => pyInt s

/-- Lines 93-99: `GiveBlockCommand.execute`. Converts the identifier with
`float` and the amount with `int`; a `ValueError` from either becomes a
`CommandException` with the "should be a number" message, a `KeyError` from
`add_item` becomes a `CommandException` with the "ID ... unknown." message. -/
def GiveBlockCommand.pyexecute : Handler := fun command_text args kwargs st =>
  match args.head? <|> kwargs.lookup "block_id" with
  | none => (.error (.typeError "execute() missing required argument block_id"), st)
  | some block_id =>
    match pyFloat block_id, GiveBlockCommand.amountValue (GiveBlockCommand.bindAmount args kwargs) with
    | some fid, some amt =>
      match addItem st fid amt with
      | some st' => (.ok none, st')
      | none =>
        (.error (.commandException command_text (some ("ID " ++ block_id ++ " unknown."))), st)
    | _, _ =>
      (.error (.commandException command_text
        (some "ID should be a number. Amount must be an integer.")), st)

/-- Lines 106-114: `SetTimeCommand.execute`. `int(time)` then the range
check `0 <= tod <= 24`; the assignment to `controller.time_of_day` happens
only on the success path, and both a conversion `ValueError` and the
explicit `raise ValueError` for an out-of-range value are caught and
re-raised as the same `CommandException`. -/
def SetTimeCommand.pyexecute : Handler := fun command_text args kwargs st =>
  match args.head? <|> kwargs.lookup "time" with
  | none => (.error (.typeError "execute() missing required argument time"), st)
  | some time =>
    match pyInt time with
    | some tod =>
      if 0 ≤ tod ∧ tod ≤ 24 then (.ok none, { st with time_of_day := tod })
      else
        (.error (.commandException command_text
          (some "Time should be a number between 0 and 24")), st)
    | none =>
      (.error (.commandException command_text
        (some "Time should be a number between 0 and 24")), st)

/-- `GiveBlockCommand` as an entry of `Command.__subclasses__()`. -/
def GiveBlockCommandType : CommandType :=
  ⟨some matchGive, GiveBlockCommand.pyexecute⟩

/-- `SetTimeCommand` as an entry of `Command.__subclasses__()`. -/
def SetTimeCommandType : CommandType :=
  ⟨some matchTimeSet, SetTimeCommand.pyexecute⟩

/-- `Command.__subclasses__()` for commands.py: CPython enumerates direct
subclasses in definition order, so `GiveBlockCommand` (line 89) comes
before `SetTimeCommand` (line 102). -/
def commandRegistry : List CommandType :=
  [GiveBlockCommandType, SetTimeCommandType]

/-- A concrete game state used to evaluate the dispatcher: time 12, the
inventory recognising item identifier 5, nothing held yet. -/
def st0 : GameState :=
  ⟨12, [(5 : ℚ)], []⟩

/-- The spec's order-determinism test pattern A, `re.match("foo.*", s)`:
the literal `foo` followed by `.*` — since the pattern has no end anchor
and `.*` may match the empty string, it matches exactly the texts starting
with `foo`, with no capture groups. -/
def matchFooStar (s : String) : Option Match :=
  match dropLit "foo".data s.data with
  | some _ => some ⟨[], []⟩
  | none => none

/-- The spec's order-determinism test pattern B, `re.match("foobar", s)`:
matches exactly the texts starting with the literal `foobar`. -/
def matchFooBar (s : String) : Option Match :=
  match dropLit "foobar".data s.data with
  | some _ => some ⟨[], []⟩
  | none => none

/-- Test command A of the spec's overlap experiment: pattern `foo.*`, and a
handler whose invocation is observable through its return value `"A"`. -/
def fooACommandType : CommandType :=
  ⟨some matchFooStar, fun _ _ _ st => (.ok (some "A"), st)⟩

/-- Test command B of the spec's overlap experiment: pattern `foobar`, and a
handler whose invocation is observable through its return value `"B"`. -/
def fooBCommandType : CommandType :=
  ⟨some matchFooBar, fun _ _ _ st => (.ok (some "B"), st)⟩

/-- C1: for every input text that starts with the sentinel `/` but whose
stripped body matches no registered command pattern, `CommandParser.execute`
raises `UnknownCommandException` whose `command_text` is exactly the
original input text, sentinel included, and the state is untouched. -/
theorem execute_unknown_command (t : String) (st : GameState)
    (hs : startsWithSlash t = true)
    (hg : matchGive (strippedOf t) = none)
    (ht : matchTimeSet (strippedOf t) = none) :
    CommandParser.execute commandRegistry t st =
      (.error (.unknownCommandException t), st) := by
  unfold CommandParser.execute CommandParser.parse
  simp [hs, commandRegistry, parseLoop, GiveBlockCommandType, SetTimeCommandType, hg, ht]

/-- Witness for C1 at the concrete input `/fly`. -/
theorem execute_unknown_command_witness :
    CommandParser.execute commandRegistry "/fly" st0 =
      (.error (.unknownCommandException "/fly"), st0) :=
  execute_unknown_command "/fly" st0 rfl rfl rfl

/-- C2: for every input text that does not start with the sentinel `/`,
`CommandParser.execute` returns `COMMAND_NOT_HANDLED` and no handler runs —
stated over an arbitrary registry, so no registered handler can influence
the outcome or the state, whatever the rest of the text contains. -/
theorem execute_no_sentinel_not_handled (registry : List CommandType) (t : String)
    (st : GameState) (hs : startsWithSlash t = false) :
    CommandParser.execute registry t st = (.ok .notHandled, st) := by
  unfold CommandParser.execute CommandParser.parse
  simp [hs]

/-- Witness for C2 at the concrete input `time set 5` (no sentinel). -/
theorem execute_no_sentinel_not_handled_witness :
    CommandParser.execute commandRegistry "time set 5" st0 = (.ok .notHandled, st0) :=
  execute_no_sentinel_not_handled commandRegistry "time set 5" st0 rfl

/-- C3: the parse loop scans the registered command types in registration
order and returns the first whose pattern matches the stripped text — any
definitions registered earlier whose patterns fail to match are skipped and
everything after the first match is ignored; in particular, with the spec's
overlapping pair `foo.*` (registered first) and `foobar`, the input
`/foobar` invokes A's handler, not B's. -/
theorem parse_first_match_wins :
    (∀ (pre post : List CommandType) (ct : CommandType) (stripped : String)
        (pat : String → Option Match) (m : Match),
        (∀ c ∈ pre, ∃ p, c.command = some p ∧ p stripped = none) →
        ct.command = some pat → pat stripped = some m →
        parseLoop (pre ++ ct :: post) stripped = .ok (some (ct, m))) ∧
    (∀ st : GameState,
        CommandParser.execute [fooACommandType, fooBCommandType] "/foobar" st =
          (.ok (.value "A"), st)) := by
  constructor
  · intro pre post ct stripped pat m hpre hct hm
    induction pre with
    | nil => simp [parseLoop, hct, hm]
    | cons c cs ih =>
      obtain ⟨p, hp, hpn⟩ := hpre c (by simp)
      simp only [List.cons_append, parseLoop, hp, hpn]
      exact ih fun c' hc' => hpre c' (by simp [hc'])
  · intro st
    rfl

/-- Witness for C3: the generic first-match theorem applied to the
registry `[A, B]` on the stripped text `foobar` (empty earlier segment),
plus the concrete dispatch. -/
theorem parse_first_match_wins_witness :
    parseLoop [fooACommandType, fooBCommandType] "foobar" =
      .ok (some (fooACommandType, ⟨[], []⟩)) ∧
    CommandParser.execute [fooACommandType, fooBCommandType] "/foobar" st0 =
      (.ok (.value "A"), st0) :=
  ⟨parse_first_match_wins.1 [] [fooBCommandType] fooACommandType "foobar"
      matchFooStar ⟨[], []⟩ (by simp) rfl rfl,
    parse_first_match_wins.2 st0⟩

/-- C4: `/time set 0` and `/time set 24` succeed and set
`controller.time_of_day` to exactly 0 and 24; `/time set 25` raises the
range-check `CommandException` and leaves the state unchanged; and
`/time set noon` matches no pattern at all, so `execute` raises
`UnknownCommandException`, not a range error. -/
theorem time_set_boundaries (st : GameState) :
    CommandParser.execute commandRegistry "/time set 0" st =
      (.ok .handled, { st with time_of_day := 0 }) ∧
    CommandParser.execute commandRegistry "/time set 24" st =
      (.ok .handled, { st with time_of_day := 24 }) ∧
    CommandParser.execute commandRegistry "/time set 25" st =
      (.error (.commandException "time set 25"
        (some "Time should be a number between 0 and 24")), st) ∧
    CommandParser.execute commandRegistry "/time set noon" st =
      (.error (.unknownCommandException "/time set noon"), st) :=
  ⟨rfl, rfl, rfl, rfl⟩

/-- Witness for C4 at the concrete state `st0`. -/
theorem time_set_boundaries_witness :
    CommandParser.execute commandRegistry "/time set 0" st0 =
      (.ok .handled, { st0 with time_of_day := 0 }) ∧
    CommandParser.execute commandRegistry "/time set 24" st0 =
      (.ok .handled, { st0 with time_of_day := 24 }) ∧
    CommandParser.execute commandRegistry "/time set 25" st0 =
      (.error (.commandException "time set 25"
        (some "Time should be a number between 0 and 24")), st0) ∧
    CommandParser.execute commandRegistry "/time set noon" st0 =
      (.error (.unknownCommandException "/time set noon"), st0) :=
  time_set_boundaries st0

/-- C5: `/give 5` reaches `GiveBlockCommand` with the single positional
argument `"5"` — the matcher passes no amount argument (the optional group
is `none` and filtered out, the keyword mapping is empty), the handler's
`amount` binding is absent and the Python default `1` is applied inside the
handler; `/give 5 3` reaches it with positional arguments `"5"` and `"3"`,
so `amount` binds to `"3"`. End to end (with the modelled inventory
recognising identifier 5), `/give 5` adds one of item 5 and `/give 5 3`
adds three. -/
theorem give_argument_binding :
    parseLoop commandRegistry "give 5" =
      .ok (some (GiveBlockCommandType, ⟨[some "5", none], []⟩)) ∧
    buildArgs ⟨[some "5", none], []⟩ = ["5"] ∧
    buildKwargs ⟨[some "5", none], []⟩ = [] ∧
    GiveBlockCommand.bindAmount ["5"] [] = none ∧
    GiveBlockCommand.amountValue none = some 1 ∧
    parseLoop commandRegistry "give 5 3" =
      .ok (some (GiveBlockCommandType, ⟨[some "5", some "3"], []⟩)) ∧
    buildArgs ⟨[some "5", some "3"], []⟩ = ["5", "3"] ∧
    GiveBlockCommand.bindAmount ["5", "3"] [] = some "3" ∧
    CommandParser.execute commandRegistry "/give 5" st0 =
      (.ok .handled, { st0 with inventory := [((5 : ℚ), 1)] }) ∧
    CommandParser.execute commandRegistry "/give 5 3" st0 =
      (.ok .handled, { st0 with inventory := [((5 : ℚ), 3)] }) :=
  ⟨rfl, rfl, rfl, rfl, rfl, rfl, rfl, rfl, rfl, rfl⟩

/-- C6 counterexample: `/give abc` does not fail with a message-carrying
`CommandException` — the give pattern requires digits, so no pattern
matches and `execute` raises `UnknownCommandException` instead, which is a
different failure mode from the claimed BadArguments error. -/
theorem give_abc_counterexample :
    CommandParser.execute commandRegistry "/give abc" st0 =
      (.error (.unknownCommandException "/give abc"), st0) ∧
    PyExc.unknownCommandException "/give abc" ≠
      PyExc.commandException "give abc"
        (some "ID should be a number. Amount must be an integer.") :=
  ⟨rfl, by decide⟩

/-- C6 amended: `/give abc` raises `UnknownCommandException` carrying the
original text, for every state — the identifier group requires digits, so
the handler (and its "should be a number" error) is never reached. -/
theorem give_abc_unknown (st : GameState) :
    CommandParser.execute commandRegistry "/give abc" st =
      (.error (.unknownCommandException "/give abc"), st) :=
  rfl

/-- Witness for the amended C6 at the concrete state `st0` with a
nonempty inventory. -/
theorem give_abc_unknown_witness :
    CommandParser.execute commandRegistry "/give abc" ⟨3, [], [((7 : ℚ), 2)]⟩ =
      (.error (.unknownCommandException "/give abc"), ⟨3, [], [((7 : ℚ), 2)]⟩) :=
  give_abc_unknown ⟨3, [], [((7 : ℚ), 2)]⟩

/-- A command class whose `command` attribute was never set: it inherits
`Command.command = None` (so the `hasattr` guard at line 36 passes), and
`re.match(None, stripped)` raises `TypeError` when the parse loop reaches
it. -/
def missingPatternCommandType : CommandType :=
  ⟨none, fun _ _ _ st => (.ok none, st)⟩

/-- C7 counterexample: a malformed command definition is not caught at any
registration step — the very call `parse("/x")` (and hence `execute`)
fails at dispatch time when the loop reaches the malformed definition,
contradicting the claim that a malformed definition never causes a
per-call failure. -/
theorem malformed_pattern_counterexample :
    CommandParser.parse [missingPatternCommandType] "/x" =
      .error (.typeError "expected string or buffer") ∧
    CommandParser.execute [missingPatternCommandType] "/x" st0 =
      (.error (.typeError "expected string or buffer"), st0) :=
  ⟨rfl, rfl⟩

/-- C7 amended: there is no registration-time check — the registry is just
the list of subclasses, scanned afresh inside `parse` — and a malformed
definition (missing pattern) makes every `parse` and `execute` call on
sentinel-prefixed text raise a `TypeError` when dispatch reaches it. -/
theorem malformed_pattern_fails_per_call (registry : List CommandType) (t : String)
    (st : GameState) (hs : startsWithSlash t = true) :
    CommandParser.parse (missingPatternCommandType :: registry) t =
      .error (.typeError "expected string or buffer") ∧
    CommandParser.execute (missingPatternCommandType :: registry) t st =
      (.error (.typeError "expected string or buffer"), st) := by
  have hp : CommandParser.parse (missingPatternCommandType :: registry) t =
      .error (.typeError "expected string or buffer") := by
    unfold CommandParser.parse
    simp [hs, parseLoop, missingPatternCommandType]
  refine ⟨hp, ?_⟩
  unfold CommandParser.execute
  simp [hp]

/-- Witness for the amended C7: the malformed definition placed in front of
the real registry makes `/time set 5` — which would otherwise succeed —
raise at dispatch time. -/
theorem malformed_pattern_fails_per_call_witness :
    CommandParser.parse (missingPatternCommandType :: commandRegistry) "/time set 5" =
      .error (.typeError "expected string or buffer") ∧
    CommandParser.execute (missingPatternCommandType :: commandRegistry) "/time set 5" st0 =
      (.error (.typeError "expected string or buffer"), st0) :=
  malformed_pattern_fails_per_call commandRegistry "/time set 5" st0 rfl

/-- C8: a capture group that did not participate in the match is dropped
entirely from the positional argument sequence — the arguments for any
groups `xs ++ none :: ys` are exactly those for `xs ++ ys`, so later
captured groups shift into the absent group's position and the handler
receives no argument for it at all (the argument type `String` admits
neither a null placeholder nor a dropped-group marker); concretely, the
give pattern on `give 5` leaves its optional group absent and the handler
receives the single argument `"5"`. -/
theorem absent_group_dropped (ns : List (String × Nat)) (xs ys : List (Option String)) :
    buildArgs ⟨xs ++ none :: ys, ns⟩ = buildArgs ⟨xs ++ ys, ns⟩ ∧
    matchGive "give 5" = some ⟨[some "5", none], []⟩ ∧
    buildArgs ⟨[some "5", none], []⟩ = ["5"] := by
  refine ⟨?_, rfl, rfl⟩
  simp [buildArgs]

/-- Witness for C8: dropping the absent middle group shifts `"b"` into its
position. -/
theorem absent_group_dropped_witness :
    buildArgs ⟨[some "a"] ++ none :: [some "b"], []⟩ =
      buildArgs ⟨[some "a"] ++ [some "b"], []⟩ ∧
    matchGive "give 5" = some ⟨[some "5", none], []⟩ :=
  ⟨(absent_group_dropped [] [some "a"] [some "b"]).1,
    (absent_group_dropped [] [some "a"] [some "b"]).2.1⟩

/-- The position a participating group ends up at after the `None` filter:
if group `idx` captured `v`, the filtered argument list holds `v` at the
index counting the participating groups before `idx`. -/
theorem filterMap_id_get (l : List (Option String)) (idx : Nat) (v : String)
    (h : l.get? idx = some (some v)) :
    (l.filterMap id).get? ((l.take idx).filterMap id).length = some v := by
  induction l generalizing idx with
  | nil => simp at h
  | cons a l ih =>
    cases idx with
    | zero =>
      simp only [List.get?] at h
      cases h
      rfl
    | succ n =>
      simp only [List.get?] at h
      cases a with
      | none => simpa using ih n h
      | some b => simpa using ih n h

/-- `getD` agrees with a successful `get?`. -/
theorem getD_of_get (l : List (Option String)) (idx : Nat) (v : String)
    (h : l.get? idx = some (some v)) :
    l.getD idx none = some v := by
  induction l generalizing idx with
  | nil => simp at h
  | cons a l ih =>
    cases idx with
    | zero =>
      simp only [List.get?] at h
      cases h
      rfl
    | succ n => simpa using ih n h

/-- C9: a named capture group that participates in the match contributes
its value twice to the handler invocation: once in the positional argument
sequence — at the position of its group, i.e. after the participating
groups preceding it — and once in the keyword mapping under its name. -/
theorem named_group_dual_binding (m : Match) (name : String) (idx : Nat) (v : String)
    (hmem : (name, idx) ∈ m.names) (hv : m.groups.get? idx = some (some v)) :
    (buildArgs m).get? ((m.groups.take idx).filterMap id).length = some v ∧
    (name, v) ∈ buildKwargs m := by
  refine ⟨filterMap_id_get m.groups idx v hv, ?_⟩
  have hd : (name, m.groups.getD idx none) ∈ groupdict m := by
    exact List.mem_map.2 ⟨(name, idx), hmem, rfl⟩
  rw [getD_of_get m.groups idx v hv] at hd
  exact List.mem_filterMap.2 ⟨(name, some v), hd, rfl⟩

/-- Witness for C9: a two-group match whose second group is named `n` and
captured `"y"` — `"y"` sits at position 1 of the positional arguments and
under `n` in the keyword mapping. -/
theorem named_group_dual_binding_witness :
    (buildArgs ⟨[some "x", some "y"], [("n", 1)]⟩).get?
        (((⟨[some "x", some "y"], [("n", 1)]⟩ : Match).groups.take 1).filterMap id).length =
      some "y" ∧
    ("n", "y") ∈ buildKwargs ⟨[some "x", some "y"], [("n", 1)]⟩ :=
  named_group_dual_binding ⟨[some "x", some "y"], [("n", 1)]⟩ "n" 1 "y"
    (by decide) (by decide)

/-- C10: `SetTimeCommand.execute` is atomic on failure — whenever it
raises (the value does not convert to an integer, the integer is outside
[0, 24], or the `time` argument is missing altogether), the state, and in
particular `controller.time_of_day`, is returned unchanged: the assignment
happens only on the success path. -/
theorem set_time_atomic (command_text : String) (args : List String)
    (kwargs : List (String × String)) (st : GameState) (e : PyExc)
    (h : (SetTimeCommand.pyexecute command_text args kwargs st).1 = .error e) :
    (SetTimeCommand.pyexecute command_text args kwargs st).2 = st := by
  simp only [SetTimeCommand.pyexecute] at h ⊢
  cases hb : args.head? <|> kwargs.lookup "time" with
  | none => simp [hb]
  | some time =>
    simp only [hb] at h ⊢
    cases hi : pyInt time with
    | none => simp [hi]
    | some tod =>
      simp only [hi] at h ⊢
      by_cases hr : 0 ≤ tod ∧ tod ≤ 24
      · simp [hr] at h
      · simp [hr]

/-- Witness for C10 at the out-of-range input `25`: evaluated on `st0`,
the handler raises and the state is exactly `st0` again. -/
theorem set_time_atomic_witness :
    (SetTimeCommand.pyexecute "time set 25" ["25"] [] st0).2 = st0 :=
  set_time_atomic "time set 25" ["25"] [] st0
    (.commandException "time set 25" (some "Time should be a number between 0 and 24")) rfl
